import Mathlib

/-!
Shallow embedding of the document-search application's core logic
(`src/constants.py`, `src/components.py`, `src/initialize.py`) and proofs
of the specified properties: citation formatting and deduplication, the
two response synthesizers, the batched vector-store builder, the
document-loading scan and the index reuse gate.
-/

set_option maxHeartbeats 1000000
set_option maxRecDepth 40000
set_option linter.unusedVariables false

/-! ## Constants (`src/constants.py`) -/

/-- constants.py: `SUPPORTED_EXTENSIONS = [".pdf", ".docx", ".csv", ".txt"]`. -/
def SUPPORTED_EXTENSIONS : List String := [".pdf", ".docx", ".csv", ".txt"]

/-- constants.py: `EMBEDDING_BATCH_SIZE = 50`. -/
def EMBEDDING_BATCH_SIZE : Nat := 50

/-- constants.py: `RETRIEVER_K = 5`. -/
def RETRIEVER_K : Nat := 5

/-- constants.py: `NO_RELEVANT_DOCS_SEARCH`. -/
def NO_RELEVANT_DOCS_SEARCH : String := "入力内容と関連する社内文書が見つかりませんでした。"

/-- constants.py: `NO_RELEVANT_DOCS_CONTACT`. -/
def NO_RELEVANT_DOCS_CONTACT : String := "回答に必要な情報が見つかりませんでした。"

/-- constants.py: `PAGE_DISPLAY_FORMAT = "（{page}ページ目）"`, applied to a page
number as in `PAGE_DISPLAY_FORMAT.format(page=page_num)` in components.py. -/
def PAGE_DISPLAY_FORMAT (page : Int) : String := "（" ++ toString page ++ "ページ目）"

/-! ## Data model

A langchain `Document` restricted to the metadata keys this program reads
(`source_file`, `source`, `page_number`, `page`, `file_type`).  A key that is
absent from the Python metadata dict is `none`.  Page values are Python ints. -/

structure Document where
  page_content : String
  source_file? : Option String
  source? : Option String
  page_number? : Option Int
  page? : Option Int
  file_type? : Option String
deriving DecidableEq, Repr

/-- Python `s.lower()` (character-wise lowercasing; on the ASCII and Japanese
text this program handles it agrees with Python's). -/
def pyLower (s : String) : String := ⟨s.data.map Char.toLower⟩

/-- Python `s.endswith(t)`. -/
def pyEndsWith (s t : String) : Bool := t.data.isSuffixOf s.data

/-- Helper for `pyContains`: does `needle` occur inside the second list? -/
def containsSub (needle : List Char) : List Char → Bool
  | [] => needle.isEmpty
  | c :: rest => needle.isPrefixOf (c :: rest) || containsSub needle rest

/-- Python `needle in haystack` (substring containment). -/
def pyContains (haystack needle : String) : Bool := containsSub needle.data haystack.data

/-- Python `s.split("/")[-1]` (the last component of a `/`-separated path). -/
def lastPathComponent (s : String) : String := (s.splitOn "/").getLastD ""

/-- components.py `format_document_source(document, is_main=False)`:
file name from `source_file` metadata, else last path component of `source`,
else a fixed fallback; when the lower-cased name ends in `.pdf`, append the
localized page suffix from `page_number`, else from 0-based `page` plus 1,
else no suffix. -/
def format_document_source (document : Document) (is_main : Bool) : String :=
  let file_name :=
    match document.source_file? with
    | some n => n
    | none =>
      match document.source? with
      | some s => lastPathComponent s
      | none => "不明なファイル"
  if pyEndsWith (pyLower file_name) ".pdf" then
    let page_info :=
      match document.page_number? with
      | some page_num => PAGE_DISPLAY_FORMAT page_num
      | none =>
        match document.page? with
        | some page => PAGE_DISPLAY_FORMAT (page + 1)
        | none => ""
    file_name ++ page_info
  else
    file_name

/-! ## Citation deduplication (components.py, shared loop of
`display_search_llm_response` and `display_contact_llm_response`)

Both synthesizers run the identical loop
`for doc in source_documents: key = format_document_source(doc, False);
 if key not in unique_docs: unique_docs[key] = doc`
and then use `unique_docs.keys()`; Python dicts preserve insertion order. -/

/-- The key list of the `unique_docs` dict built by both display functions. -/
def unique_docs_keys (source_documents : List Document) : List String :=
  source_documents.foldl
    (fun acc doc =>
      let source_key := format_document_source doc false
      if source_key ∈ acc then acc else acc ++ [source_key]) []

/-- Modelled from the spec's words ("duplicates collapse to first occurrence,
order preserved"): keep each string's first occurrence, in order — the head is
kept, and later occurrences of it are filtered out of the deduplicated tail. -/
def firstSeenDedup : List String → List String
  | [] => []
  | x :: xs => x :: (firstSeenDedup xs).filter (fun y => decide (y ≠ x))

/-! ## Response payloads (components.py)

The `llm_response` value is polymorphic: a dict (keyed mapping), an object
with `result`/`answer`/`source_documents` attributes, or anything else.  For
the object shape an attribute that is absent is `none`; a `some ""` models an
attribute that is present but Python-falsy.  `reprStr` stands for the raw
payload text shown for diagnosis. -/

inductive LLMResponse where
  | dict (result? : Option String) (answer? : Option String)
      (source_documents? : Option (List Document))
  | obj (result? : Option String) (answer? : Option String)
      (source_documents? : Option (List Document)) (reprStr : String)
  | other (reprStr : String)
deriving DecidableEq, Repr

/-- Python truthiness of an optional string attribute: present and non-empty. -/
def truthy : Option String → Bool
  | some s => !s.isEmpty
  | none => false

/-- components.py `display_contact_llm_response`, lines 141–158: extract
`(answer_text, source_documents)` from either payload shape.  `none` is the
fall-through `else` branch (unrecognized shape).  The dict branch is
`llm_response.get("result", llm_response.get("answer", "回答が見つかりませんでした"))`
(key presence decides); the object branches test `hasattr` plus truthiness. -/
def contact_answer_extraction : LLMResponse → Option (String × List Document)
  | .dict result? answer? source_documents? =>
    some (result?.getD (answer?.getD "回答が見つかりませんでした"),
      source_documents?.getD [])
  | .obj result? answer? source_documents? _ =>
    if truthy result? then some (result?.getD "", source_documents?.getD [])
    else if truthy answer? then some (answer?.getD "", source_documents?.getD [])
    else none
  | .other _ => none

/-- Python `"\n".join(parts)`. -/
def joinNL (parts : List String) : String := String.intercalate "\n" parts

/-- Numbered lines `f"{i}. {name}"` produced by `enumerate(names, 1)`. -/
def numberedLines (names : List String) : List String :=
  names.enum.map (fun p => toString (p.1 + 1) ++ ". " ++ p.2)

/-- components.py `display_contact_llm_response`, lines 160–193: the returned
content for an extracted answer.  The no-info short-circuit
`ct.NO_RELEVANT_DOCS_CONTACT.lower() in answer_text.lower()` comes first; the
final content is `"\n".join(content_parts)` where the citation block is
appended only when `source_documents` is truthy and the dedup dict nonempty. -/
def contactContent (answer_text : String) (source_documents : List Document) : String :=
  if pyContains (pyLower answer_text) (pyLower NO_RELEVANT_DOCS_CONTACT) then
    NO_RELEVANT_DOCS_CONTACT
  else
    let unique_keys := unique_docs_keys source_documents
    let content_parts := ["💬 **回答:** " ++ answer_text]
    let content_parts :=
      if !source_documents.isEmpty && decide (0 < unique_keys.length) then
        content_parts ++ ["\n📚 **参照した社内文書:**"] ++ numberedLines unique_keys
      else content_parts
    joinNL content_parts

/-- components.py `display_contact_llm_response`, body of the outer `try`
(lines 134–193).  An exception inside the `try` would surface as `.error`;
in this embedding (all metadata well-typed) no branch raises. -/
def display_contact_llm_response_raw (llm_response : LLMResponse) : Except String String :=
  match contact_answer_extraction llm_response with
  | none => Except.ok "予期しないレスポンス形式"
  | some (answer_text, source_documents) =>
    Except.ok (contactContent answer_text source_documents)

/-- components.py `display_contact_llm_response`: the `try` body wrapped by
the catch-all `except Exception` (lines 195–202), which degrades any raised
exception to the fixed error content instead of propagating it. -/
def display_contact_llm_response (llm_response : LLMResponse) : String :=
  match display_contact_llm_response_raw llm_response with
  | .ok content => content
  | .error _ => "回答の表示中にエラーが発生しました。"

/-- components.py `display_search_llm_response`, lines 74–79: extract
`source_documents` from either payload shape (default `[]`). -/
def search_source_documents : LLMResponse → List Document
  | .dict _ _ source_documents? => source_documents?.getD []
  | .obj _ _ source_documents? _ => source_documents?.getD []
  | .other _ => []

/-- components.py `display_search_llm_response`, lines 81–112: with a truthy
document list, the content lists the first deduplicated citation as the main
reference and numbers the rest; otherwise the fixed no-docs message. -/
def display_search_llm_response (llm_response : LLMResponse) : String :=
  let source_documents := search_source_documents llm_response
  if !source_documents.isEmpty then
    let content_parts := ["**📋 関連する社内文書**", ""]
    let content_parts :=
      match unique_docs_keys source_documents with
      | [] => content_parts
      | main_source :: rest =>
        let content_parts :=
          content_parts ++ ["🔍 **メイン参照文書:** " ++ main_source, ""]
        if decide (1 ≤ rest.length) then
          content_parts ++ ["📚 **その他の関連文書:**"] ++ numberedLines rest
        else content_parts
    joinNL content_parts
  else
    NO_RELEVANT_DOCS_SEARCH

/-! ## Batched vector-store builder (initialize.py, `create_vectorstore_in_batches`) -/

/-- One loop iteration of `create_vectorstore_in_batches`: the first batch is
`Chroma.from_documents` (creates the persisted index), every later batch is
`vectorstore.add_documents` (incremental insert). -/
inductive BatchOp (α : Type) where
  | create (batch_texts : List α)
  | add (batch_texts : List α)
deriving DecidableEq, Repr

/-- The documents carried by a batch operation. -/
def BatchOp.docs {α : Type} : BatchOp α → List α
  | .create batch_texts => batch_texts
  | .add batch_texts => batch_texts

/-- initialize.py lines 352–355: `batch_texts = texts[start_idx:end_idx]` with
`start_idx = batch_num * batch_size` and
`end_idx = min((batch_num + 1) * batch_size, total_chunks)`. -/
def batchSlice {α : Type} (texts : List α) (batch_num : Nat) : List α :=
  let start_idx := batch_num * EMBEDDING_BATCH_SIZE
  let end_idx := min ((batch_num + 1) * EMBEDDING_BATCH_SIZE) texts.length
  (texts.drop start_idx).take (end_idx - start_idx)

/-- initialize.py `create_vectorstore_in_batches` (lines 327–380) as the
sequence of index operations it issues:
`total_batches = math.ceil(total_chunks / batch_size)` iterations, batch 0
creating the store, each later batch appended via `add_documents`. -/
def create_vectorstore_in_batches {α : Type} (texts : List α) : List (BatchOp α) :=
  let total_batches := (texts.length + EMBEDDING_BATCH_SIZE - 1) / EMBEDDING_BATCH_SIZE
  (List.range total_batches).map (fun batch_num =>
    if batch_num = 0 then BatchOp.create (batchSlice texts batch_num)
    else BatchOp.add (batchSlice texts batch_num))

/-- The `vectorstore` variable of `create_vectorstore_in_batches`: initialized
to `None` (line 350) and threaded through the loop; the function returns it.
`none` models Python `None`; `.add` with no store would be the
`None.add_documents` `AttributeError`, modelled as staying `none`. -/
def runBatchOps {α : Type} (ops : List (BatchOp α)) : Option (List α) :=
  ops.foldl
    (fun vectorstore op =>
      match vectorstore, op with
      | _, .create batch_texts => some batch_texts
      | some store, .add batch_texts => some (store ++ batch_texts)
      | none, .add _ => none) none

/-! ## Document loading (initialize.py, `load_documents`) -/

/-- A file met by the `data_dir.rglob("*")` scan: its basename, its extension
(`file_path.suffix`), and the outcome of the loader call for it — `.error`
models the loader raising, which line 293–295 catches, logs and skips. -/
structure ScanFile where
  name : String
  ext : String
  loadResult : Except String (List Document)

/-- initialize.py lines 245–248: tag each PDF page (in `enumerate` order) with
`source_file`, 1-based `page_number`, and `file_type = "PDF"`. -/
def tagPDF (name : String) (docs : List Document) : List Document :=
  docs.enum.map (fun p =>
    ⟨p.2.page_content, some name, p.2.source?, some ((p.1 : Int) + 1), p.2.page?,
      some "PDF"⟩)

/-- initialize.py lines 258–287: tag docx/csv/txt units with `source_file`
and their `file_type`. -/
def tagSimple (file_type name : String) (docs : List Document) : List Document :=
  docs.map (fun d =>
    ⟨d.page_content, some name, d.source?, d.page_number?, d.page?, some file_type⟩)

/-- The units one file contributes: the loader result dispatched on the
lower-cased extension as in initialize.py lines 238–289 (a failure is an
`.error`). -/
def loadFileDocs (f : ScanFile) : Except String (List Document) :=
  match f.loadResult with
  | .error e => .error e
  | .ok docs =>
    if pyLower f.ext = ".pdf" then .ok (tagPDF f.name docs)
    else if pyLower f.ext = ".docx" then .ok (tagSimple "DOCX" f.name docs)
    else if pyLower f.ext = ".csv" then .ok (tagSimple "CSV" f.name docs)
    else if pyLower f.ext = ".txt" then .ok (tagSimple "TXT" f.name docs)
    else .ok []

/-- initialize.py `load_documents` (lines 216–298): fold over the scanned
files; unsupported extensions are skipped, a supported file extends
`documents` with its units on success, and a raising loader is caught
(`except ... continue`) leaving `documents` unchanged. -/
def load_documents (files : List ScanFile) : List Document :=
  files.foldl
    (fun documents f =>
      if pyLower f.ext ∈ SUPPORTED_EXTENSIONS then
        match loadFileDocs f with
        | .ok docs => documents ++ docs
        | .error _ => documents
      else documents) []

/-- The units a single file contributes to the final `documents` list. -/
def fileContribution (f : ScanFile) : List Document :=
  if pyLower f.ext ∈ SUPPORTED_EXTENSIONS then
    match loadFileDocs f with
    | .ok docs => docs
    | .error _ => []
  else []

/-! ## Startup gate (initialize.py, `setup_vector_store`) -/

/-- The externally visible calls `setup_vector_store` can make, in order. -/
inductive SetupStep where
  | openExisting
  | smokeQuery
  | loadDocuments
  | splitDocuments
  | deleteDir
  | buildPrimary
  | buildFallback
  | setRetrieverFromExisting
  | setRetrieverFromNew
deriving DecidableEq, Repr

/-- How `setup_vector_store` ends: retriever stored in session state (from the
reused or the freshly built index), the early-return warning when no documents
load, or an exception propagating out (re-raised by lines 211–213). -/
inductive SetupResult where
  | retrieverSet (fromExisting : Bool)
  | noDocumentsWarning
  | raised (msg : String)
deriving DecidableEq, Repr

/-- The environment `setup_vector_store` runs against: filesystem state,
configuration, and the outcomes of the external calls it may make. -/
structure SetupEnv where
  chromaExists : Bool
  forceRebuild : Bool
  openSmokeOk : Bool
  documents : List Document
  splitChunks : List Document
  primaryBuildOk : Bool
  fallbackBuildOk : Bool

/-- initialize.py lines 127–209: the rebuild path of `setup_vector_store` —
load, early-return on no documents, split, delete any existing directory,
build in batches (retrying once on a fresh directory, lines 181–200), then
derive the retriever from the returned store (`None.as_retriever` raises). -/
def rebuild_path (env : SetupEnv) : List SetupStep × SetupResult :=
  if env.documents.isEmpty then
    ([SetupStep.loadDocuments], SetupResult.noDocumentsWarning)
  else
    let texts := env.splitChunks
    let steps := [SetupStep.loadDocuments, SetupStep.splitDocuments]
    let steps := steps ++ (if env.chromaExists then [SetupStep.deleteDir] else [])
    if env.primaryBuildOk then
      match runBatchOps (create_vectorstore_in_batches texts) with
      | some _ =>
        (steps ++ [SetupStep.buildPrimary, SetupStep.setRetrieverFromNew],
          SetupResult.retrieverSet false)
      | none =>
        (steps ++ [SetupStep.buildPrimary],
          SetupResult.raised "AttributeError: NoneType has no attribute as_retriever")
    else if env.fallbackBuildOk then
      match runBatchOps (create_vectorstore_in_batches texts) with
      | some _ =>
        (steps ++ [SetupStep.buildPrimary, SetupStep.buildFallback,
            SetupStep.setRetrieverFromNew],
          SetupResult.retrieverSet false)
      | none =>
        (steps ++ [SetupStep.buildPrimary, SetupStep.buildFallback],
          SetupResult.raised "AttributeError: NoneType has no attribute as_retriever")
    else
      (steps ++ [SetupStep.buildPrimary, SetupStep.buildFallback],
        SetupResult.raised "vectorstore build failed")

/-- initialize.py `setup_vector_store` (lines 83–213).  With an existing
directory and no force-rebuild flag, open the store and run the smoke query
`vectorstore.similarity_search("test", k=1)`; success stores the retriever
from the existing index and returns, while the inner `except` (lines 123–125)
only logs and falls through to the rebuild path. -/
def setup_vector_store (env : SetupEnv) : List SetupStep × SetupResult :=
  if env.chromaExists && !env.forceRebuild then
    if env.openSmokeOk then
      ([SetupStep.openExisting, SetupStep.smokeQuery,
          SetupStep.setRetrieverFromExisting],
        SetupResult.retrieverSet true)
    else
      let r := rebuild_path env
      (SetupStep.openExisting :: SetupStep.smokeQuery :: r.1, r.2)
  else
    rebuild_path env

/-! ## Theorems -/

/-- C6: the shared citation formatter returns the file name alone unless the
(lower-cased) file name ends in `.pdf`; for a PDF it appends the localized
page suffix with N from `page_number` when present, else from 0-based `page`
plus 1, and no suffix when both are absent. -/
theorem citation_format_c6 :
    (∀ (t fn : String) (pn pg : Option Int) (ft : Option String),
        pyEndsWith (pyLower fn) ".pdf" = false →
        format_document_source ⟨t, some fn, none, pn, pg, ft⟩ false = fn)
  ∧ (∀ (t fn : String) (n : Int) (pg : Option Int) (ft : Option String),
        pyEndsWith (pyLower fn) ".pdf" = true →
        format_document_source ⟨t, some fn, none, some n, pg, ft⟩ false
          = fn ++ PAGE_DISPLAY_FORMAT n)
  ∧ (∀ (t fn : String) (p : Int) (ft : Option String),
        pyEndsWith (pyLower fn) ".pdf" = true →
        format_document_source ⟨t, some fn, none, none, some p, ft⟩ false
          = fn ++ PAGE_DISPLAY_FORMAT (p + 1))
  ∧ (∀ (t fn : String) (ft : Option String),
        pyEndsWith (pyLower fn) ".pdf" = true →
        format_document_source ⟨t, some fn, none, none, none, ft⟩ false = fn) := by
  refine ⟨?_, ?_, ?_, ?_⟩ <;> intros <;>
    simp_all [format_document_source]

/-- Witness for C6 at the spec's example inputs. -/
theorem citation_format_c6_witness :
    format_document_source ⟨"", some "plan.pdf", none, some 4, none, some "PDF"⟩ false
        = "plan.pdf（4ページ目）"
  ∧ format_document_source ⟨"", some "notes.txt", none, none, none, none⟩ false
        = "notes.txt" := by
  constructor
  · have h := citation_format_c6.2.1 "" "plan.pdf" 4 none (some "PDF") (by decide)
    rw [h]; decide
  · exact citation_format_c6.1 "" "notes.txt" none none none (by decide)

/-- C7: in contact mode the answer string is taken from `result` first, then
`answer`; a keyed mapping missing both keys falls back to the not-found
message, and an attribute object exposing a truthy `result` or `answer` is
read the same way (one exposing neither is the unrecognized shape). -/
theorem contact_extraction_c7 :
    (∀ (r : String) (a : Option String) (sd : Option (List Document)),
        contact_answer_extraction (.dict (some r) a sd) = some (r, sd.getD []))
  ∧ (∀ (a : String) (sd : Option (List Document)),
        contact_answer_extraction (.dict none (some a) sd) = some (a, sd.getD []))
  ∧ (∀ sd : Option (List Document),
        contact_answer_extraction (.dict none none sd)
          = some ("回答が見つかりませんでした", sd.getD []))
  ∧ (∀ (r : String) (a : Option String) (sd : Option (List Document)) (rep : String),
        r ≠ "" →
        contact_answer_extraction (.obj (some r) a sd rep) = some (r, sd.getD []))
  ∧ (∀ (r : Option String) (a : String) (sd : Option (List Document)) (rep : String),
        truthy r = false → a ≠ "" →
        contact_answer_extraction (.obj r (some a) sd rep) = some (a, sd.getD [])) := by
  refine ⟨?_, ?_, ?_, ?_, ?_⟩ <;> intros <;>
    simp_all [contact_answer_extraction, truthy, String.isEmpty_iff]

/-- Witness for C7 at concrete payloads of each shape. -/
theorem contact_extraction_c7_witness :
    contact_answer_extraction (.dict (some "回答A") (some "回答B") none)
        = some ("回答A", [])
  ∧ contact_answer_extraction (.dict none none none)
        = some ("回答が見つかりませんでした", [])
  ∧ contact_answer_extraction (.obj (some "回答A") none none "r")
        = some ("回答A", [])
  ∧ contact_answer_extraction (.obj (some "") (some "回答B") none "r")
        = some ("回答B", []) :=
  ⟨contact_extraction_c7.1 "回答A" (some "回答B") none,
   contact_extraction_c7.2.2.1 none,
   contact_extraction_c7.2.2.2.1 "回答A" none none "r" (by decide),
   contact_extraction_c7.2.2.2.2 (some "") "回答B" none "r" (by decide) (by decide)⟩

/-- C5: a contact-mode payload matching neither known shape yields the
distinct "unexpected format" content, and for every payload the synthesizer's
`try` body ends in a returned content value, never in an exception escaping
(the catch-all `except` would further degrade one to the fixed error text). -/
theorem contact_unrecognized_c5 :
    (∀ resp : LLMResponse, contact_answer_extraction resp = none →
        display_contact_llm_response resp = "予期しないレスポンス形式")
  ∧ (∀ resp : LLMResponse, ∃ content,
        display_contact_llm_response_raw resp = Except.ok content) := by
  constructor
  · intro resp h
    simp [display_contact_llm_response, display_contact_llm_response_raw, h]
  · intro resp
    cases h : contact_answer_extraction resp with
    | none =>
      exact ⟨"予期しないレスポンス形式", by simp [display_contact_llm_response_raw, h]⟩
    | some p =>
      obtain ⟨a, sd⟩ := p
      exact ⟨contactContent a sd, by simp [display_contact_llm_response_raw, h]⟩

/-- Witness for C5 at a raw non-mapping, non-object payload. -/
theorem contact_unrecognized_c5_witness :
    display_contact_llm_response (.other "生のJSON") = "予期しないレスポンス形式"
  ∧ ∃ content,
      display_contact_llm_response_raw (.other "生のJSON") = Except.ok content :=
  ⟨contact_unrecognized_c5.1 (.other "生のJSON") rfl,
   contact_unrecognized_c5.2 (.other "生のJSON")⟩

/-- C2: whenever the extracted contact-mode answer text contains the
configured no-relevant-info phrase as a case-insensitive substring, the
synthesizer returns exactly the canonical message, whatever the attached
source documents. -/
theorem contact_noinfo_c2 (resp : LLMResponse) (answer_text : String)
    (source_documents : List Document)
    (hx : contact_answer_extraction resp = some (answer_text, source_documents))
    (hc : pyContains (pyLower answer_text) (pyLower NO_RELEVANT_DOCS_CONTACT) = true) :
    display_contact_llm_response resp = NO_RELEVANT_DOCS_CONTACT := by
  simp [display_contact_llm_response, display_contact_llm_response_raw, hx,
    contactContent, hc]

/-- Witness for C2 at the spec's example payload, with a non-empty
`source_documents`. -/
theorem contact_noinfo_c2_witness :
    display_contact_llm_response
        (.dict (some "回答に必要な情報が見つかりませんでした。extra text") none
          (some [⟨"x", some "X.txt", none, none, none, some "TXT"⟩]))
      = NO_RELEVANT_DOCS_CONTACT :=
  contact_noinfo_c2 _ _ _ rfl (by decide)

/-- C8: after ingestion every unit produced from a PDF carries a 1-based
`page_number`: the unit built from the loader's k-th emitted page (0-based k)
has `page_number = k + 1` (and out-of-range indices yield none on both
sides). -/
theorem pdf_page_number_c8 (name : String) (docs : List Document) (k : Nat) :
    ((tagPDF name docs).get? k).map Document.page_number?
      = (docs.get? k).map (fun _ => some ((k : Int) + 1)) := by
  simp only [tagPDF, List.get?_eq_getElem?, List.getElem?_map, List.getElem?_enum]
  cases docs[k]? <;> simp

/-- C10: called on an empty chunk list, the batched builder issues zero index
operations (nothing created, nothing inserted) and its `vectorstore` result
is `None`; a caller reaching `as_retriever` on that result raises instead of
obtaining an empty index. -/
theorem empty_chunks_c10 :
    (∀ α : Type, create_vectorstore_in_batches ([] : List α) = [])
  ∧ (∀ α : Type, runBatchOps (create_vectorstore_in_batches ([] : List α)) = none)
  ∧ (rebuild_path
        ⟨true, false, false, [⟨"d", some "a.txt", none, none, none, some "TXT"⟩],
          [], true, true⟩).2
      = SetupResult.raised "AttributeError: NoneType has no attribute as_retriever" := by
  refine ⟨fun α => ?_, fun α => ?_, by decide⟩
  · simp [create_vectorstore_in_batches, EMBEDDING_BATCH_SIZE]
  · simp [create_vectorstore_in_batches, EMBEDDING_BATCH_SIZE, runBatchOps]

/-- Filtering commutes with first-seen deduplication. -/
theorem firstSeenDedup_filter (p : String → Bool) (l : List String) :
    firstSeenDedup (l.filter p) = (firstSeenDedup l).filter p := by
  induction l with
  | nil => rfl
  | cons x xs ih =>
    by_cases hx : p x = true
    · simp only [List.filter_cons, hx, if_pos, firstSeenDedup, ih]
      rw [List.filter_comm]
    · simp only [List.filter_cons, hx, Bool.false_eq_true, if_neg, not_false_iff,
        firstSeenDedup, ih, List.filter_filter]
      refine (List.filter_congr ?_).symm
      intro y hy
      by_cases hyx : y = x
      · subst hyx; simp [hx]
      · simp [hyx]

/-- The deduplicating fold of components.py, with its accumulator
generalized: it extends `acc` by the first-seen deduplication of the keys not
already in `acc`. -/
theorem dedup_foldl_acc (xs : List String) (acc : List String) :
    xs.foldl (fun acc k => if k ∈ acc then acc else acc ++ [k]) acc
      = acc ++ firstSeenDedup (xs.filter (fun k => decide (k ∉ acc))) := by
  induction xs generalizing acc with
  | nil => simp [firstSeenDedup]
  | cons x xs ih =>
    by_cases hx : x ∈ acc
    · rw [List.foldl_cons, if_pos hx, ih]
      simp [List.filter_cons, hx]
    · rw [List.foldl_cons, if_neg hx, ih]
      have hfil : xs.filter (fun k => decide (k ∉ acc ++ [x]))
          = (xs.filter (fun k => decide (k ∉ acc))).filter (fun y => decide (y ≠ x)) := by
        rw [List.filter_filter]
        refine List.filter_congr ?_
        intro a ha
        by_cases h1 : a = x
        · subst h1; simp
        · by_cases h2 : a ∈ acc <;> simp [h1, h2]
      rw [hfil, firstSeenDedup_filter]
      simp [List.filter_cons, hx, firstSeenDedup, List.append_assoc]

/-- First-seen deduplication never reorders: its output is a sublist of its
input. -/
theorem firstSeenDedup_sublist (xs : List String) :
    (firstSeenDedup xs).Sublist xs := by
  induction xs with
  | nil => exact List.Sublist.refl []
  | cons x xs ih =>
    exact List.Sublist.cons₂ x ((List.filter_sublist (firstSeenDedup xs)).trans ih)

/-- C1: both synthesizers deduplicate citations by the formatted composite
string — the dedup loop they share equals first-seen deduplication of the
formatted keys, never reorders (its output is a sublist of the key sequence),
and on the input `[A(p1), B, A(p1), C]` both rendered contents cite exactly
`[A(p1), B, C]`. -/
theorem dedup_c1 :
    (∀ source_documents : List Document,
        unique_docs_keys source_documents
          = firstSeenDedup
              (source_documents.map (fun doc => format_document_source doc false)))
  ∧ (∀ source_documents : List Document,
        (unique_docs_keys source_documents).Sublist
          (source_documents.map (fun doc => format_document_source doc false)))
  ∧ unique_docs_keys
        [⟨"a1", some "A.pdf", none, some 1, none, some "PDF"⟩,
         ⟨"b", some "B.txt", none, none, none, some "TXT"⟩,
         ⟨"a2", some "A.pdf", none, some 1, none, some "PDF"⟩,
         ⟨"c", some "C.txt", none, none, none, some "TXT"⟩]
      = ["A.pdf（1ページ目）", "B.txt", "C.txt"]
  ∧ display_search_llm_response
        (.dict none none (some
          [⟨"a1", some "A.pdf", none, some 1, none, some "PDF"⟩,
           ⟨"b", some "B.txt", none, none, none, some "TXT"⟩,
           ⟨"a2", some "A.pdf", none, some 1, none, some "PDF"⟩,
           ⟨"c", some "C.txt", none, none, none, some "TXT"⟩]))
      = "**📋 関連する社内文書**\n\n🔍 **メイン参照文書:** A.pdf（1ページ目）\n\n📚 **その他の関連文書:**\n1. B.txt\n2. C.txt"
  ∧ display_contact_llm_response
        (.dict (some "回答テキスト") none (some
          [⟨"a1", some "A.pdf", none, some 1, none, some "PDF"⟩,
           ⟨"b", some "B.txt", none, none, none, some "TXT"⟩,
           ⟨"a2", some "A.pdf", none, some 1, none, some "PDF"⟩,
           ⟨"c", some "C.txt", none, none, none, some "TXT"⟩]))
      = "💬 **回答:** 回答テキスト\n\n📚 **参照した社内文書:**\n1. A.pdf（1ページ目）\n2. B.txt\n3. C.txt" := by
  have hmain : ∀ source_documents : List Document,
      unique_docs_keys source_documents
        = firstSeenDedup
            (source_documents.map (fun doc => format_document_source doc false)) := by
    intro docs
    have h1 : unique_docs_keys docs
        = (docs.map (fun doc => format_document_source doc false)).foldl
            (fun acc k => if k ∈ acc then acc else acc ++ [k]) [] := by
      rw [unique_docs_keys, List.foldl_map]
    rw [h1, dedup_foldl_acc]
    simp
  refine ⟨hmain, ?_, by decide, by decide, by decide⟩
  intro docs
  rw [hmain docs]
  exact firstSeenDedup_sublist _

/-- The loading fold of initialize.py with its accumulator generalized: each
scanned file appends exactly its own contribution. -/
theorem load_documents_acc (files : List ScanFile) (acc : List Document) :
    files.foldl
        (fun documents f =>
          if pyLower f.ext ∈ SUPPORTED_EXTENSIONS then
            match loadFileDocs f with
            | .ok docs => documents ++ docs
            | .error _ => documents
          else documents) acc
      = acc ++ (files.map fileContribution).flatten := by
  induction files generalizing acc with
  | nil => simp
  | cons f fs ih =>
    rw [List.foldl_cons, ih]
    simp only [List.map_cons, List.flatten_cons, fileContribution]
    by_cases hs : pyLower f.ext ∈ SUPPORTED_EXTENSIONS
    · simp only [if_pos hs]
      cases hl : loadFileDocs f <;> simp [List.append_assoc]
    · simp [if_neg hs]

/-- C9: the directory scan is tolerant of single-file read failures — the
result is exactly the concatenation of the per-file contributions, and a file
whose loader raises contributes nothing while the files before and after it
load exactly as they would without it. -/
theorem load_skip_c9 :
    (∀ files : List ScanFile,
        load_documents files = (files.map fileContribution).flatten)
  ∧ (∀ (files₁ files₂ : List ScanFile) (bad : ScanFile) (e : String),
        bad.loadResult = Except.error e →
        load_documents (files₁ ++ bad :: files₂)
          = load_documents files₁ ++ load_documents files₂) := by
  have hmain : ∀ files : List ScanFile,
      load_documents files = (files.map fileContribution).flatten := by
    intro files
    rw [load_documents, load_documents_acc]
    simp
  refine ⟨hmain, ?_⟩
  intro files₁ files₂ bad e hbad
  have hcontrib : fileContribution bad = [] := by
    rw [fileContribution, loadFileDocs, hbad]
    by_cases hs : pyLower bad.ext ∈ SUPPORTED_EXTENSIONS <;> simp [hs]
  rw [hmain, hmain, hmain]
  simp [hcontrib]

/-- Witness for C9: a failing CSV between two good files is skipped and the
other two files' units survive. -/
theorem load_skip_c9_witness :
    (⟨"社員名簿.csv", ".csv", Except.error "ParserError"⟩ : ScanFile).loadResult
        = Except.error "ParserError"
  ∧ load_documents
        [⟨"a.txt", ".txt", Except.ok [⟨"本文A", none, none, none, none, none⟩]⟩,
         ⟨"社員名簿.csv", ".csv", Except.error "ParserError"⟩,
         ⟨"b.txt", ".txt", Except.ok [⟨"本文B", none, none, none, none, none⟩]⟩]
      = load_documents [⟨"a.txt", ".txt", Except.ok [⟨"本文A", none, none, none, none, none⟩]⟩]
        ++ load_documents [⟨"b.txt", ".txt", Except.ok [⟨"本文B", none, none, none, none, none⟩]⟩] :=
  ⟨rfl,
   load_skip_c9.2
     [⟨"a.txt", ".txt", Except.ok [⟨"本文A", none, none, none, none, none⟩]⟩]
     [⟨"b.txt", ".txt", Except.ok [⟨"本文B", none, none, none, none, none⟩]⟩]
     ⟨"社員名簿.csv", ".csv", Except.error "ParserError"⟩ "ParserError" rfl⟩

/-- C4: with an existing index directory and the force-rebuild flag unset,
a successful open-plus-smoke-query stores the retriever from the existing
index and performs no ingestion step (no loading, chunking, deleting or
building); a failed open/smoke-query is swallowed — the gate runs exactly
the rebuild path after it, its outcome is the rebuild path's outcome, and
document loading does occur. -/
theorem reuse_gate_c4 (env : SetupEnv) (hx : env.chromaExists = true)
    (hf : env.forceRebuild = false) :
    (env.openSmokeOk = true →
      setup_vector_store env
          = ([SetupStep.openExisting, SetupStep.smokeQuery,
              SetupStep.setRetrieverFromExisting], SetupResult.retrieverSet true)
        ∧ SetupStep.loadDocuments ∉ (setup_vector_store env).1
        ∧ SetupStep.splitDocuments ∉ (setup_vector_store env).1
        ∧ SetupStep.deleteDir ∉ (setup_vector_store env).1
        ∧ SetupStep.buildPrimary ∉ (setup_vector_store env).1
        ∧ SetupStep.buildFallback ∉ (setup_vector_store env).1)
  ∧ (env.openSmokeOk = false →
      setup_vector_store env
          = (SetupStep.openExisting :: SetupStep.smokeQuery :: (rebuild_path env).1,
              (rebuild_path env).2)
        ∧ SetupStep.loadDocuments ∈ (setup_vector_store env).1) := by
  constructor
  · intro hok
    have hsetup : setup_vector_store env
        = ([SetupStep.openExisting, SetupStep.smokeQuery,
            SetupStep.setRetrieverFromExisting], SetupResult.retrieverSet true) := by
      simp [setup_vector_store, hx, hf, hok]
    rw [hsetup]
    refine ⟨rfl, ?_, ?_, ?_, ?_, ?_⟩ <;> decide
  · intro hko
    have hsetup : setup_vector_store env
        = (SetupStep.openExisting :: SetupStep.smokeQuery :: (rebuild_path env).1,
            (rebuild_path env).2) := by
      simp [setup_vector_store, hx, hf, hko]
    refine ⟨hsetup, ?_⟩
    rw [hsetup]
    have hload : SetupStep.loadDocuments ∈ (rebuild_path env).1 := by
      rw [rebuild_path]
      by_cases hd : env.documents.isEmpty
      · simp [hd]
      · simp only [hd, Bool.false_eq_true, if_neg, not_false_iff]
        by_cases hp : env.primaryBuildOk <;>
          by_cases hb : env.fallbackBuildOk <;>
            cases hrun : runBatchOps (create_vectorstore_in_batches env.splitChunks) <;>
              simp [hp, hb, hrun]
    simp [hload]

/-- Witness for C4: a concrete environment where the reuse succeeds, and one
where the smoke query fails and the gate falls back to a successful rebuild. -/
theorem reuse_gate_c4_witness :
    setup_vector_store
        ⟨true, false, true, [⟨"d", some "a.txt", none, none, none, some "TXT"⟩],
          [⟨"d", some "a.txt", none, none, none, some "TXT"⟩], true, true⟩
        = ([SetupStep.openExisting, SetupStep.smokeQuery,
            SetupStep.setRetrieverFromExisting], SetupResult.retrieverSet true)
  ∧ setup_vector_store
        ⟨true, false, false, [⟨"d", some "a.txt", none, none, none, some "TXT"⟩],
          [⟨"d", some "a.txt", none, none, none, some "TXT"⟩], true, true⟩
        = ([SetupStep.openExisting, SetupStep.smokeQuery, SetupStep.loadDocuments,
            SetupStep.splitDocuments, SetupStep.deleteDir, SetupStep.buildPrimary,
            SetupStep.setRetrieverFromNew], SetupResult.retrieverSet false) := by
  constructor
  · exact ((reuse_gate_c4 _ rfl rfl).1 rfl).1
  · have h := ((reuse_gate_c4
      ⟨true, false, false, [⟨"d", some "a.txt", none, none, none, some "TXT"⟩],
        [⟨"d", some "a.txt", none, none, none, some "TXT"⟩], true, true⟩ rfl rfl).2 rfl).1
    rw [h]
    decide

/-- Concatenating all batch slices restores the chunk list: the batches
tile `texts` exactly, in order. -/
theorem batchSlice_flatten {α : Type} (texts : List α) :
    ((List.range ((texts.length + EMBEDDING_BATCH_SIZE - 1) / EMBEDDING_BATCH_SIZE)).map
        (batchSlice texts)).flatten = texts := by
  suffices H : ∀ (n : Nat) (l : List α), l.length = n →
      ((List.range ((n + EMBEDDING_BATCH_SIZE - 1) / EMBEDDING_BATCH_SIZE)).map
        (batchSlice l)).flatten = l by
    have h := H texts.length texts rfl
    simpa using h
  intro n
  induction n using Nat.strong_induction_on with
  | _ n ih =>
    intro l hlen
    by_cases h0 : n = 0
    · subst h0
      have hnil : l = [] := List.length_eq_zero.mp hlen
      subst hnil
      simp [EMBEDDING_BATCH_SIZE]
    · have hB : EMBEDDING_BATCH_SIZE = 50 := rfl
      have hm : (n + EMBEDDING_BATCH_SIZE - 1) / EMBEDDING_BATCH_SIZE
          = ((n + EMBEDDING_BATCH_SIZE - 1) / EMBEDDING_BATCH_SIZE - 1) + 1 := by
        rw [hB]; omega
      rw [hm, List.range_succ_eq_map, List.map_cons, List.flatten_cons]
      by_cases hsmall : n ≤ 50
      · have hk : (n + EMBEDDING_BATCH_SIZE - 1) / EMBEDDING_BATCH_SIZE - 1 = 0 := by
          rw [hB]; omega
        rw [hk]
        simp only [List.range_zero, List.map_nil, List.flatten_nil, List.append_nil]
        simp only [batchSlice, hB, hlen, List.drop_zero, Nat.zero_mul, Nat.sub_zero,
          Nat.zero_add, Nat.one_mul]
        have hmin : min 50 n = n := by omega
        rw [hmin, ← hlen, List.take_length]
      · have hgt : 50 < n := by omega
        have hshift :
            List.map (batchSlice l)
                (List.map Nat.succ
                  (List.range ((n + EMBEDDING_BATCH_SIZE - 1) / EMBEDDING_BATCH_SIZE - 1)))
              = List.map (batchSlice (l.drop 50))
                  (List.range ((n + EMBEDDING_BATCH_SIZE - 1) / EMBEDDING_BATCH_SIZE - 1)) := by
          rw [List.map_map]
          refine List.map_congr_left ?_
          intro j hj
          show batchSlice l (j + 1) = batchSlice (l.drop 50) j
          simp only [batchSlice, hB, List.drop_drop, List.length_drop, hlen]
          have e1 : 50 + j * 50 = (j + 1) * 50 := by ring
          rw [e1, List.take_eq_take]
          simp only [List.length_drop, hlen, inf_eq_min]
          omega
        rw [hshift]
        have hk : (n + EMBEDDING_BATCH_SIZE - 1) / EMBEDDING_BATCH_SIZE - 1
            = ((n - 50) + EMBEDDING_BATCH_SIZE - 1) / EMBEDDING_BATCH_SIZE := by
          rw [hB]; omega
        rw [hk]
        rw [ih (n - 50) (by omega) (l.drop 50) (by simp [hlen])]
        simp only [batchSlice, hB, hlen, List.drop_zero, Nat.zero_mul, Nat.sub_zero,
          Nat.zero_add, Nat.one_mul]
        have hmin : min 50 n = 50 := by omega
        rw [hmin]
        exact List.take_append_drop 50 l

/-- C3: on a non-empty chunk list the builder issues exactly
`ceil(n / EMBEDDING_BATCH_SIZE)` batches; their contents tile the chunk list
exactly and in order, the element at offset `j` of batch `i` being chunk
`i * EMBEDDING_BATCH_SIZE + j`; the first batch creates the store and every
subsequent batch is an incremental insert, never a create. -/
theorem batches_c3 {α : Type} (texts : List α) (h : texts ≠ []) :
    (create_vectorstore_in_batches texts).length
        = (texts.length + EMBEDDING_BATCH_SIZE - 1) / EMBEDDING_BATCH_SIZE
  ∧ ((create_vectorstore_in_batches texts).map BatchOp.docs).flatten = texts
  ∧ (create_vectorstore_in_batches texts).head?
        = some (BatchOp.create (batchSlice texts 0))
  ∧ (∀ op ∈ (create_vectorstore_in_batches texts).tail, ∃ b, op = BatchOp.add b)
  ∧ (∀ (i : Nat) (op : BatchOp α),
        (create_vectorstore_in_batches texts).get? i = some op →
        op.docs = batchSlice texts i
        ∧ ∀ j, j < op.docs.length →
            op.docs.get? j = texts.get? (i * EMBEDDING_BATCH_SIZE + j)) := by
  have hn : 1 ≤ texts.length := List.length_pos.mpr h
  have hm1 : (texts.length + EMBEDDING_BATCH_SIZE - 1) / EMBEDDING_BATCH_SIZE
      = ((texts.length + EMBEDDING_BATCH_SIZE - 1) / EMBEDDING_BATCH_SIZE - 1) + 1 := by
    simp only [EMBEDDING_BATCH_SIZE]
    omega
  have hrep : create_vectorstore_in_batches texts
      = BatchOp.create (batchSlice texts 0)
        :: (List.range
              ((texts.length + EMBEDDING_BATCH_SIZE - 1) / EMBEDDING_BATCH_SIZE - 1)).map
            (fun j => BatchOp.add (batchSlice texts (j + 1))) := by
    simp only [create_vectorstore_in_batches]
    rw [hm1, List.range_succ_eq_map, List.map_cons, List.map_map]
    constructor
  refine ⟨?_, ?_, ?_, ?_, ?_⟩
  · simp only [create_vectorstore_in_batches, List.length_map, List.length_range]
  · have hdocs : (create_vectorstore_in_batches texts).map BatchOp.docs
        = (List.range
            ((texts.length + EMBEDDING_BATCH_SIZE - 1) / EMBEDDING_BATCH_SIZE)).map
            (batchSlice texts) := by
      simp only [create_vectorstore_in_batches, List.map_map]
      refine List.map_congr_left ?_
      intro i hi
      by_cases h0 : i = 0 <;> simp [h0, BatchOp.docs, Function.comp]
    rw [hdocs, batchSlice_flatten]
  · rw [hrep]; rfl
  · intro op hop
    rw [hrep] at hop
    simp only [List.tail_cons, List.mem_map] at hop
    obtain ⟨j, hj, rfl⟩ := hop
    exact ⟨batchSlice texts (j + 1), rfl⟩
  · intro i op hop
    simp only [create_vectorstore_in_batches, List.get?_eq_getElem?,
      List.getElem?_map] at hop
    by_cases hi : i < (texts.length + EMBEDDING_BATCH_SIZE - 1) / EMBEDDING_BATCH_SIZE
    · rw [List.getElem?_range hi] at hop
      have hop' : (if i = 0 then BatchOp.create (batchSlice texts i)
          else BatchOp.add (batchSlice texts i)) = op := by
        simpa using hop
      have hdocs_i : op.docs = batchSlice texts i := by
        rw [← hop']
        by_cases h0 : i = 0 <;> simp [h0, BatchOp.docs]
      refine ⟨hdocs_i, ?_⟩
      intro j hj
      rw [hdocs_i] at hj ⊢
      simp only [batchSlice, List.length_take, List.length_drop] at hj ⊢
      have hjlt : j < min ((i + 1) * EMBEDDING_BATCH_SIZE) texts.length
          - i * EMBEDDING_BATCH_SIZE := lt_of_lt_of_le hj (by omega)
      rw [List.get?_eq_getElem?, List.get?_eq_getElem?,
        List.getElem?_take_of_lt hjlt, List.getElem?_drop]
    · have hnone : (List.range
          ((texts.length + EMBEDDING_BATCH_SIZE - 1) / EMBEDDING_BATCH_SIZE))[i]?
            = none := by
        apply List.getElem?_eq_none
        simpa using Nat.le_of_not_lt hi
      rw [hnone] at hop
      simp at hop

/-- Witness for C3 at the spec's example: 120 chunks with batch size 50 give
exactly 3 batches of sizes 50, 50, 20, a create followed only by inserts, and
chunk 51 (0-based chunk 50) starting batch 2. -/
theorem batches_c3_witness :
    ((create_vectorstore_in_batches (List.range 120)).map BatchOp.docs).flatten
        = List.range 120
  ∧ (create_vectorstore_in_batches (List.range 120)).length = 3
  ∧ (create_vectorstore_in_batches (List.range 120)).map
        (fun op => op.docs.length) = [50, 50, 20]
  ∧ ((create_vectorstore_in_batches (List.range 120)).get? 1).map
        (fun op => op.docs.get? 0) = some (some 50)
  ∧ (create_vectorstore_in_batches (List.range 120)).head?
        = some (BatchOp.create ((List.range 120).take 50)) := by
  have h := batches_c3 (List.range 120) (by simp)
  refine ⟨h.2.1, ?_, by decide, by decide, ?_⟩
  · rw [h.1]
    decide
  · rw [h.2.2.1]
    decide
